import Mathlib

/-!
Verification of the help.ai server against its natural-language specification.

The definitions below are a shallow embedding of the server code:
  - `src/server/storage.ts` (`MemStorage`): users / conversations / messages /
    api-key maps with their get, create, update and delete operations.
  - `src/server/api/chat.ts`: the `POST /api/chat` handler, including
    `detectWebSearchIntent`, the 10-message / 8000-character history
    formatting, the system-prompt construction from the per-user memory
    blob, and the best-effort memory update.
  - `src/server/routes.ts`: the `GET /api/conversations/:id` handler and
    the `GET /api/me` handler.
  - `src/server/api/auth.ts`: the shape of login / register responses.

External effects (the Together AI completion call, the internal search
round trip, `Date.now()`, `JSON.parse` of the dynamic jsonb memory value,
and a possible storage-write failure inside the memory-update try/catch)
are passed in as explicit data, so every definition is executable.
-/

namespace HelpAi

/-- A row of the `messages` table (`shared/schema.ts`): id, conversationId,
content, role, timestamp.  The optional jsonb `metadata` column is never
written or read by the routes verified here and is omitted. -/
structure Message where
  id : Nat
  conversationId : Nat
  content : String
  role : String
  timestamp : Nat
deriving Repr, DecidableEq

/-- A row of the `conversations` table: id, userId, title, createdAt,
updatedAt. -/
structure Conversation where
  id : Nat
  userId : Nat
  title : String
  createdAt : Nat
  updatedAt : Nat
deriving Repr, DecidableEq

/-- One entry of the memory blob `conversations` array, as written by the
chat handler (`chat.ts` lines 350-354). -/
structure MemEntry where
  lastInteraction : String
  topic : String
  response : String
deriving Repr, DecidableEq

/-- The result of parsing the dynamic jsonb memory value: an object with a
`conversations` array, an object without one, or a non-object JSON value
(number, string, boolean, null); `truthy` records the JavaScript
truthiness of a non-object value. -/
inductive ParsedVal where
  | objWithConvs (convs : List MemEntry)
  | objNoConvs
  | nonObj (truthy : Bool)
deriving Repr, DecidableEq

/-- The dynamic value stored in the `memory` jsonb column.  The code
tolerates either a string (which `JSON.parse` may fail on) or an
already-parsed value; for a string we carry the raw text (for JavaScript
truthiness) together with the outcome of `JSON.parse` on it
(`none` = parse throws). -/
inductive MemoryField where
  | mstr (raw : String) (parseResult : Option ParsedVal)
  | mval (v : ParsedVal)
deriving Repr, DecidableEq

/-- JavaScript truthiness of a memory value (`user?.memory || null`,
`if (user.memory)`): an empty string and falsy primitives are falsy,
objects are truthy. -/
def memTruthy : MemoryField → Bool
  | .mstr raw _ => raw ≠ ""
  | .mval (.objWithConvs _) => true
  | .mval .objNoConvs => true
  | .mval (.nonObj t) => t

/-- `typeof userMemory === "string" ? JSON.parse(userMemory) : userMemory`:
for a string, the (possibly failing) `JSON.parse`; an already-parsed value
passes through. -/
def parseMem : MemoryField → Option ParsedVal
  | .mstr _ p => p
  | .mval v => some v

/-- A row of the `users` table: id, username, optional password hash,
email, profile picture, OAuth provider and provider id, and the jsonb
memory blob. -/
structure User where
  id : Nat
  username : String
  password : Option String
  email : Option String
  profilePicture : Option String
  provider : Option String
  providerId : Option String
  memory : Option MemoryField
deriving Repr, DecidableEq

/-- A row of the `api_keys` table: id, userId, optional Together AI key and
optional DuckDuckGo key. -/
structure ApiKey where
  id : Nat
  userId : Nat
  togetherApiKey : Option String
  duckduckgoApiKey : Option String
deriving Repr, DecidableEq

/-- The state of `MemStorage` (`storage.ts`): one insertion-ordered map per
entity (modelled as a list of rows, looked up by id) plus the four id
counters. -/
structure Storage where
  users : List User
  conversations : List Conversation
  messages : List Message
  apiKeys : List ApiKey
  userIdCounter : Nat
  conversationIdCounter : Nat
  messageIdCounter : Nat
  apiKeyIdCounter : Nat
deriving Repr, DecidableEq

/-- `Map.set(id, row)` on an id-keyed map: replace the row with that id in
place, or append when absent. -/
def setById (key : α → Nat) (l : List α) (x : α) : List α :=
  if l.any (fun y => key y = key x) then
    l.map (fun y => if key y = key x then x else y)
  else l ++ [x]

/-- `MemStorage.getUser`: `this.users.get(id)`. -/
def getUser (st : Storage) (id : Nat) : Option User :=
  st.users.find? (fun u => u.id = id)

/-- `MemStorage.updateUser(id, { memory })`: merge the patch into the
stored user and write it back, or do nothing when the user is absent
(the source returns `undefined`).  Specialized to the memory patch, the
only `updateUser` call made by the chat route. -/
def updateUserMem (st : Storage) (id : Nat) (mem : MemoryField) : Storage :=
  match getUser st id with
  | none => st
  | some user =>
      { st with users := setById User.id st.users { user with memory := some mem } }

/-- `MemStorage.getConversation`: `this.conversations.get(id)`. -/
def getConversation (st : Storage) (id : Nat) : Option Conversation :=
  st.conversations.find? (fun c => c.id = id)

/-- `MemStorage.getMessage`: `this.messages.get(id)`. -/
def getMessage (st : Storage) (id : Nat) : Option Message :=
  st.messages.find? (fun m => m.id = id)

/-- Stable insertion of a message into a timestamp-sorted list, placing it
before the first strictly later message (the behaviour of the stable
JavaScript `sort((a, b) => a.timestamp - b.timestamp)`). -/
def insertByTs (m : Message) : List Message → List Message
  | [] => [m]
  | x :: xs => if m.timestamp < x.timestamp then m :: x :: xs else x :: insertByTs m xs

/-- Stable sort of messages by ascending timestamp. -/
def sortByTs : List Message → List Message
  | [] => []
  | x :: xs => insertByTs x (sortByTs xs)

/-- `MemStorage.getMessagesByConversationId`: filter the values of the message map by conversation id and sort by timestamp. -/
def getMessagesByConversationId (st : Storage) (conversationId : Nat) : List Message :=
  sortByTs (st.messages.filter (fun m => m.conversationId = conversationId))

/-- `MemStorage.createMessage`: allocate the next id, store the message
with the current time as timestamp, and bump the `updatedAt` of the owning conversation. -/
def createMessage (st : Storage) (conversationId : Nat) (content role : String)
    (now : Nat) : Message × Storage :=
  let id := st.messageIdCounter
  let m : Message := ⟨id, conversationId, content, role, now⟩
  let st1 := { st with messages := setById Message.id st.messages m,
                       messageIdCounter := id + 1 }
  match getConversation st1 conversationId with
  | some c =>
      (m, { st1 with conversations :=
              setById Conversation.id st1.conversations { c with updatedAt := now } })
  | none => (m, st1)

/-- `MemStorage.deleteConversation`: delete every message whose
`conversationId` matches, then delete the conversation itself; the Boolean
is the "was present" result of `Map.delete`. -/
def deleteConversation (st : Storage) (id : Nat) : Bool × Storage :=
  let existed := st.conversations.any (fun c => c.id = id)
  (existed,
   { st with messages := st.messages.filter (fun m => ¬ m.conversationId = id),
             conversations := st.conversations.filter (fun c => ¬ c.id = id) })

/-- `MemStorage.getApiKeysByUserId`: linear search of the api-key map values for the row with this `userId`. -/
def getApiKeysByUserId (st : Storage) (userId : Nat) : Option ApiKey :=
  st.apiKeys.find? (fun k => k.userId = userId)

/-! ### Search-intent detection (`chat.ts` lines 9-33)

The fixed pattern list of `detectWebSearchIntent` uses only literal text,
`.+` (one or more non-newline characters) and non-capturing alternations
of literals, with one pattern anchored at the start.  We embed exactly
that fragment: a pattern is a token list, matched with the existential
semantics of `RegExp.test` (case-insensitive via lowercasing, unanchored
unless flagged). -/

/-- One token of a search pattern: a literal, `.+`, or an alternation of
literals. -/
inductive RTok where
  | lit (s : String)
  | dotPlus
  | alt (alts : List String)
deriving Repr, DecidableEq

/-- Match a literal (as a character list) against the front of the input,
returning the rest on success. -/
def litMatch : List Char → List Char → Option (List Char)
  | [], cs => some cs
  | _ :: _, [] => none
  | l :: ls, c :: cs => if c = l then litMatch ls cs else none

/-- Match a token list against a prefix of the input (the rest of the
input is unconstrained, as for an un-`$`-anchored regex).  `.+` tries
every non-empty newline-free prefix. -/
def matchToks : List RTok → List Char → Bool
  | [], _ => true
  | .lit s :: rest, cs =>
      match litMatch s.data cs with
      | some cs1 => matchToks rest cs1
      | none => false
  | .alt alts :: rest, cs =>
      alts.any (fun a =>
        match litMatch a.data cs with
        | some cs1 => matchToks rest cs1
        | none => false)
  | .dotPlus :: rest, cs =>
      (List.range cs.length).any (fun k =>
        ((cs.take (k + 1)).all (fun c => c ≠ '\n')) && matchToks rest (cs.drop (k + 1)))

/-- Unanchored test: try to match starting at every position. -/
def testFrom (toks : List RTok) : List Char → Bool
  | [] => matchToks toks []
  | c :: cs1 => matchToks toks (c :: cs1) || testFrom toks cs1

/-- A whole pattern: token list plus whether it is `^`-anchored. -/
structure RPat where
  anchored : Bool
  toks : List RTok
deriving Repr, DecidableEq

/-- `pattern.test(message)` with the `i` flag: lowercase the input and
match anchored or anywhere. -/
def rTest (p : RPat) (message : String) : Bool :=
  let cs := message.data.map Char.toLower
  if p.anchored then matchToks p.toks cs else testFrom p.toks cs

/-- The fixed ordered pattern list of `detectWebSearchIntent`
(`chat.ts` lines 13-29), written over lowercase literals since every
pattern carries the `i` flag. -/
def searchPatterns : List RPat :=
  [ ⟨false, [.lit "search ", .alt ["for", "about", "on"], .lit " ", .dotPlus]⟩,
    ⟨false, [.lit "find ", .dotPlus, .lit " ", .alt ["on", "about", "in"], .lit " ", .dotPlus]⟩,
    ⟨false, [.lit "look up ", .dotPlus]⟩,
    ⟨false, [.lit "what is ", .dotPlus]⟩,
    ⟨false, [.lit "who is ", .dotPlus]⟩,
    ⟨false, [.lit "where is ", .dotPlus]⟩,
    ⟨false, [.lit "when ", .alt ["did", "was", "is"], .lit " ", .dotPlus]⟩,
    ⟨false, [.lit "google ", .dotPlus]⟩,
    ⟨false, [.lit "search ", .dotPlus]⟩,
    ⟨false, [.lit "information about ", .dotPlus]⟩,
    ⟨false, [.lit "latest news ", .alt ["on", "about"], .lit " ", .dotPlus]⟩,
    ⟨false, [.lit "current ", .dotPlus]⟩,
    ⟨false, [.lit "recent ", .dotPlus]⟩,
    ⟨false, [.lit "find articles ", .alt ["on", "about"], .lit " ", .dotPlus]⟩,
    ⟨true, [.lit "can you ", .alt ["search", "find", "lookup", "get"], .lit " ", .dotPlus]⟩ ]

/-- `detectWebSearchIntent` (`chat.ts` lines 9-33): true when any pattern
of the fixed list matches the message. -/
def detectWebSearchIntent (message : String) : Bool :=
  searchPatterns.any (fun p => rTest p message)

/-! ### History formatting and the chat turn (`chat.ts` lines 72-383) -/

/-- `Array.prototype.slice(-n)`: the last `n` elements (the whole list
when it is shorter). -/
def jsSliceNeg (n : Nat) (l : List α) : List α :=
  l.drop (l.length - n)

/-- `String.prototype.substring(0, n)`: the first `n` characters. -/
def jsSubstring (s : String) (n : Nat) : String :=
  ⟨s.data.take n⟩

/-- Number of characters of a string (JavaScript `.length` on the
contents handled here). -/
def jsLength (s : String) : Nat :=
  s.data.length

/-- The marker appended to a message truncated by the history formatter
(`chat.ts` line 177). -/
def TRUNCATION_MARKER : String := "... [content truncated due to length]"

/-- Per-message content truncation of the history formatter (`chat.ts`
lines 176-178): content longer than 8000 characters is cut to its first
8000 characters plus the marker. -/
def truncateContent (content : String) : String :=
  if jsLength content > 8000 then jsSubstring content 8000 ++ TRUNCATION_MARKER
  else content

/-- A role-tagged message of the payload submitted to the completion
API. -/
structure OutboundMsg where
  role : String
  content : String
deriving Repr, DecidableEq

/-- `formattedHistory` (`chat.ts` lines 171-179): keep only the last 10
messages of the conversation history and truncate each content. -/
def formattedHistory (conversationHistory : List Message) : List OutboundMsg :=
  (jsSliceNeg 10 conversationHistory).map
    (fun msg => { role := msg.role, content := truncateContent msg.content })

/-- The fixed base instruction string of the system message
(`chat.ts` line 191). -/
def BASE_SYSTEM_PROMPT : String :=
  "You are Help.ai, a helpful AI assistant powered by Nous-Hermes-2-Mixtral-8x7B-DPO. You can assist with coding, answer questions, help with tasks, and provide accurate information. When generating code, include copy and download options. Always base your answers on accurate information and help the user to the best of your abilities."

/-- One bullet of the memory context block (`chat.ts` line 207), with the
falsy fallbacks for topic and response. -/
def memoryLine (e : MemEntry) : String :=
  "- Topic: " ++ (if e.topic = "" then "Unknown" else e.topic) ++
    ", Response: " ++ (if e.response = "" then "No response" else e.response)

/-- The memory context block (`chat.ts` lines 205-208): the last 5
entries, one bullet per line. -/
def memoryString (convs : List MemEntry) : String :=
  String.intercalate "\n" ((jsSliceNeg 5 convs).map memoryLine)

/-- System-prompt construction (`chat.ts` lines 188-215).  `userMemory`
is the (truthy) memory value, if any; a string value goes through
`JSON.parse`, whose failure propagates to the catch block of the route
(`Except.error`). -/
def buildSystemContent (userMemory : Option MemoryField) : Except Unit String :=
  match userMemory with
  | none => .ok BASE_SYSTEM_PROMPT
  | some mem =>
      match parseMem mem with
      | none => .error ()
      | some v =>
          let ms :=
            match v with
            | .objWithConvs convs => if 0 < convs.length then memoryString convs else ""
            | _ => ""
          .ok (if ms = "" then BASE_SYSTEM_PROMPT
               else BASE_SYSTEM_PROMPT ++
                 "\n\nHere is some context from previous conversations with this user:\n" ++ ms)

/-- JavaScript `||` truthiness on an optional string: an absent or empty
string is falsy. -/
def truthy : Option String → Option String
  | some s => if s = "" then none else some s
  | none => none

/-- Key resolution for registered users (`chat.ts` line 159):
`apiKeys?.togetherApiKey || process.env.TOGETHER_AI_API_KEY || ""`,
with `none` for the falsy final result. -/
def resolveRegisteredKey (st : Storage) (userId : Nat) (envKey : Option String) :
    Option String :=
  match truthy ((getApiKeysByUserId st userId).bind ApiKey.togetherApiKey) with
  | some k => some k
  | none => truthy envKey

/-- The outcome of the Together AI completion call (an external HTTP
round trip): a non-2xx response, a 2xx response missing
`choices[0].message.content`, or a reply. -/
inductive CompletionOutcome where
  | httpError
  | badFormat
  | reply (content : String)
deriving Repr, DecidableEq

/-- External inputs of one `POST /api/chat` request: the environment
fallback key, the formatted text of a successful internal search call
(`none` when the search fails or is skipped), the completion outcome,
whether the `storage.updateUser` write inside the memory-update
try/catch throws, and the request times. -/
structure ChatEnv where
  togetherApiKeyEnv : Option String
  searchFormatted : Option String
  completion : CompletionOutcome
  memWriteFails : Bool
  now : Nat
  nowIso : String
deriving Repr, DecidableEq

/-- The HTTP outcome of a chat turn: the 200 body
`{userMessage, assistantMessage}` or an error status with its message. -/
inductive ChatResult where
  | ok (userMessage assistantMessage : Message)
  | err (status : Nat) (msg : String)
deriving Repr, DecidableEq

/-- Error message bodies of the chat route. -/
def GUEST_KEY_MSG : String :=
  "No API key available for guest users. Please log in and add your own API key in settings."

def NO_KEY_MSG : String :=
  "No Together AI API key found. Please add an API key in settings."

def CONV_NOT_FOUND_MSG : String := "Conversation not found"

def ACCESS_DENIED_MSG : String := "Access denied"

def PROCESS_FAIL_MSG : String := "Failed to process message"

def AI_FAIL_MSG : String := "Failed to get response from AI model"

def AI_FORMAT_MSG : String := "Invalid response format from AI model"

/-- The `conversations` array the memory update starts from
(`chat.ts` lines 320-347): a fresh empty array, unless the stored memory
is truthy and parses (a parse failure is caught and keeps the fresh
object) to an object carrying a `conversations` array, which is then
adopted. -/
def existingConvs (mem : Option MemoryField) : List MemEntry :=
  match mem with
  | none => []
  | some m =>
      if memTruthy m then
        match parseMem m with
        | some (.objWithConvs convs) => convs
        | _ => []
      else []

/-- The new `conversations` array written by the memory update:
`[...memoryObj.conversations, currentContext].slice(-10)` with
`topic = message.substring(0, 100)` and
`response = aiResponse.substring(0, 200)` (`chat.ts` lines 349-360). -/
def memoryStepConvs (mem : Option MemoryField) (message aiResponse nowIso : String) :
    List MemEntry :=
  jsSliceNeg 10 (existingConvs mem ++
    [⟨nowIso, jsSubstring message 100, jsSubstring aiResponse 200⟩])

/-- Tail of a successful chat turn (`chat.ts` lines 315-375): for a
registered user (`!isGuestMode && userId`), best-effort memory update
inside a try/catch — a throwing write leaves storage unchanged — then
unconditionally answer with both messages. -/
def finishTurn (memWriteFails : Bool) (userId : Nat)
    (userMessage assistantMessage : Message) (message aiResponse nowIso : String)
    (st : Storage) : ChatResult × Storage :=
  let st1 :=
    if userId ≠ 0 then
      match getUser st userId with
      | none => st
      | some user =>
          let newConvs := memoryStepConvs user.memory message aiResponse nowIso
          if memWriteFails then st
          else updateUserMem st userId (.mval (.objWithConvs newConvs))
    else st
  (.ok userMessage assistantMessage, st1)

/-- The guest branch of the chat handler (`x-guest-mode: true`): mock
messages with `Date.now()` ids, history = the current message only,
environment key only, and no storage access at all. -/
def guestChat (env : ChatEnv) (message : String) (conversationId : Nat)
    (st : Storage) : ChatResult × Storage :=
  let userMessage : Message := ⟨env.now, conversationId, message, "user", env.now⟩
  match truthy env.togetherApiKeyEnv with
  | none => (.err 400 GUEST_KEY_MSG, st)
  | some _ =>
      let _formatted := formattedHistory [userMessage]
      match env.completion with
      | .httpError => (.err 500 AI_FAIL_MSG, st)
      | .badFormat => (.err 500 AI_FORMAT_MSG, st)
      | .reply aiResponse =>
          let assistantMessage : Message :=
            ⟨env.now + 1, conversationId, aiResponse, "assistant", env.now⟩
          finishTurn env.memWriteFails 0 userMessage assistantMessage
            message aiResponse env.nowIso st

/-- The registered branch of the chat handler, after conversation
validation: persist the user message, load history, resolve the key,
build the system prompt (where `JSON.parse` of a string memory value may
throw, reaching the catch block of the route as a 500), optionally augment with
search results, call the completion API, persist the reply, and finish
with the memory update. -/
def registeredChat (env : ChatEnv) (userId : Nat) (message : String)
    (conversationId : Nat) (st : Storage) : ChatResult × Storage :=
  let pm := createMessage st conversationId message "user" env.now
  let userMessage := pm.1
  let st1 := pm.2
  let conversationHistory := getMessagesByConversationId st1 conversationId
  match resolveRegisteredKey st1 userId env.togetherApiKeyEnv with
  | none => (.err 400 NO_KEY_MSG, st1)
  | some _ =>
      let _formatted := formattedHistory conversationHistory
      let userMemory : Option MemoryField :=
        if userId ≠ 0 then
          match getUser st1 userId with
          | some u =>
              match u.memory with
              | some m => if memTruthy m then some m else none
              | none => none
          | none => none
        else none
      match buildSystemContent userMemory with
      | .error _ => (.err 500 PROCESS_FAIL_MSG, st1)
      | .ok sysContent =>
          let webSearchResults :=
            if detectWebSearchIntent message then env.searchFormatted else none
          let _sysContentFinal :=
            match webSearchResults with
            | some info =>
                sysContent ++ "\n\nI've searched the web for \"" ++ message ++
                  "\" and found this information:\n" ++ info ++
                  "\n\nUse the above information to help answer the user's question. Be sure to cite sources when appropriate."
            | none => sysContent
          match env.completion with
          | .httpError => (.err 500 AI_FAIL_MSG, st1)
          | .badFormat => (.err 500 AI_FORMAT_MSG, st1)
          | .reply aiResponse =>
              let am := createMessage st1 conversationId aiResponse "assistant" env.now
              finishTurn env.memWriteFails userId userMessage am.1
                message aiResponse env.nowIso am.2

/-- The `POST /api/chat` handler (`chat.ts` lines 79-383): guest requests
skip conversation validation entirely; registered requests 404 on a
missing conversation and 403 on a foreign one. -/
def chatHandler (env : ChatEnv) (isGuestMode : Bool) (reqUserId : Nat)
    (message : String) (conversationId : Nat) (st : Storage) :
    ChatResult × Storage :=
  if isGuestMode then guestChat env message conversationId st
  else
    match getConversation st conversationId with
    | none => (.err 404 CONV_NOT_FOUND_MSG, st)
    | some conversation =>
        if conversation.userId = reqUserId then
          registeredChat env reqUserId message conversationId st
        else (.err 403 ACCESS_DENIED_MSG, st)

/-! ### Other routes -/

/-- Response of `GET /api/conversations/:id` (`routes.ts` lines
198-222). -/
inductive ConvGetResponse where
  | err (status : Nat) (msg : String)
  | ok (conversation : Conversation) (messages : List Message)
deriving Repr, DecidableEq

/-- The `GET /api/conversations/:id` handler: 404 when the conversation
does not exist, 403 when it is not owned by the authenticated user,
otherwise the conversation together with its messages. -/
def getConversationHandler (st : Storage) (userId conversationId : Nat) :
    ConvGetResponse :=
  match getConversation st conversationId with
  | none => .err 404 CONV_NOT_FOUND_MSG
  | some conversation =>
      if conversation.userId = userId then
        .ok conversation (getMessagesByConversationId st conversationId)
      else .err 403 ACCESS_DENIED_MSG

/-- The `GET /api/me` handler (`routes.ts` lines 164-166):
`res.json(req.user)` — the stored user record, verbatim. -/
def meHandler (user : User) : User := user

/-- The body shape returned by `POST /api/auth/login` and
`POST /api/auth/register` (`auth.ts` lines 71 and 96): only id,
username and email. -/
structure AuthUserView where
  id : Nat
  username : String
  email : Option String
deriving Repr, DecidableEq

/-- `POST /api/auth/login` success body:
`{ id: user.id, username: user.username, email: user.email }`. -/
def loginResponseBody (user : User) : AuthUserView :=
  ⟨user.id, user.username, user.email⟩

/-- `POST /api/auth/register` success body (same three fields). -/
def registerResponseBody (user : User) : AuthUserView :=
  ⟨user.id, user.username, user.email⟩

/-! ### Shared concrete fixtures for witnesses and counterexamples -/

/-- A registered local user with no memory blob. -/
def demoUser : User :=
  ⟨1, "alice", some "hash", some "alice@x.com", none, some "local", none, none⟩

/-- A conversation owned by `demoUser`. -/
def demoConversation : Conversation := ⟨1, 1, "Trip planning", 5, 5⟩

/-- A storage state holding `demoUser` and `demoConversation`, no
messages and no stored api keys. -/
def demoStorage : Storage :=
  ⟨[demoUser], [demoConversation], [], [], 2, 2, 1, 1⟩

/-- A request environment with no environment fallback key. -/
def demoEnvNoKey : ChatEnv := ⟨none, none, .reply "hi there", false, 100, "iso"⟩

/-- A request environment with an environment fallback key and a
successful completion. -/
def demoEnvWithKey : ChatEnv := ⟨some "env-key", none, .reply "yo", false, 100, "iso"⟩

/-! ### Helper lemmas -/

/-- `createMessage` does not touch the api-key map. -/
theorem createMessage_apiKeys (st : Storage) (conversationId : Nat)
    (content role : String) (now : Nat) :
    (createMessage st conversationId content role now).2.apiKeys = st.apiKeys := by
  unfold createMessage
  dsimp only
  split <;> rfl

/-- A found element that the filter keeps is still the first match after
filtering. -/
theorem find?_filter_keep {l : List Message} {p q : Message → Bool} {m : Message}
    (hf : l.find? p = some m) (hq : q m = true) :
    (l.filter q).find? p = some m := by
  induction l with
  | nil => simp at hf
  | cons x xs ih =>
      by_cases hpx : p x = true
      · rw [List.find?_cons_of_pos _ hpx] at hf
        have hmx : x = m := by simpa using hf
        subst hmx
        rw [List.filter_cons_of_pos (by simpa using hq)]
        exact List.find?_cons_of_pos _ hpx
      · have hpx0 : p x = false := by simpa using hpx
        rw [List.find?_cons_of_neg _ (by simp [hpx0])] at hf
        by_cases hqx : q x = true
        · rw [List.filter_cons_of_pos (by simpa using hqx)]
          rw [List.find?_cons_of_neg _ (by simp [hpx0])]
          exact ih hf
        · rw [List.filter_cons_of_neg (by simpa using hqx)]
          exact ih hf

/-- When the only possible match is removed by the filter, nothing is
found after filtering. -/
theorem find?_filter_drop {l : List Message} {p q : Message → Bool} {m : Message}
    (hf : l.find? p = some m) (hq : q m = false)
    (huniq : ∀ y ∈ l, p y = true → y = m) :
    (l.filter q).find? p = none := by
  apply List.find?_eq_none.mpr
  intro y hy hpy
  have hyl : y ∈ l := List.mem_of_mem_filter hy
  have hym : y = m := huniq y hyl hpy
  subst hym
  have hqy : q y = true := List.of_mem_filter hy
  rw [hq] at hqy
  exact Bool.false_ne_true hqy

/-- `claim C1 (counterexample)` — the claim asserts that a registered
turn with no stored key and no environment key aborts with the 400
"add an API key" message before any persistence, with no Message row
created.  At this concrete input the 400 is produced but the user
message has already been stored, refuting the claim as stated. -/
theorem c1_counterexample_message_persisted_before_key_check :
    (chatHandler demoEnvNoKey false 1 "hello" 1 demoStorage).1 =
      .err 400 NO_KEY_MSG ∧
    (chatHandler demoEnvNoKey false 1 "hello" 1 demoStorage).2.messages =
      [⟨1, 1, "hello", "user", 100⟩] ∧
    demoStorage.messages = [] := by
  refine ⟨by decide, by decide, by decide⟩

/-- `createMessage` always bumps the message id counter. -/
theorem createMessage_messageIdCounter (st : Storage) (conversationId : Nat)
    (content role : String) (now : Nat) :
    (createMessage st conversationId content role now).2.messageIdCounter =
      st.messageIdCounter + 1 := by
  unfold createMessage
  dsimp only
  split <;> rfl

/-- `claim C1 (amended)` — for a registered turn on an existing owned
conversation, when neither a stored per-user Together key nor the
environment fallback is truthy, the turn aborts with the 400 "add an API
key" message, but only after the user message has been persisted: the
resulting storage is exactly the post-`createMessage` storage (user
message row stored, conversation updatedAt bumped, message id counter
advanced), and nothing else runs. -/
theorem c1_amended_missing_key_aborts_after_user_message_persist
    (env : ChatEnv) (userId : Nat) (message : String) (conversationId : Nat)
    (st : Storage) (conversation : Conversation)
    (hconv : getConversation st conversationId = some conversation)
    (howner : conversation.userId = userId)
    (hstored : truthy ((getApiKeysByUserId st userId).bind ApiKey.togetherApiKey) = none)
    (henv : truthy env.togetherApiKeyEnv = none) :
    chatHandler env false userId message conversationId st =
      (.err 400 NO_KEY_MSG, (createMessage st conversationId message "user" env.now).2) ∧
    (chatHandler env false userId message conversationId st).2.messageIdCounter =
      st.messageIdCounter + 1 := by
  have hkeys : getApiKeysByUserId (createMessage st conversationId message "user" env.now).2
      userId = getApiKeysByUserId st userId := by
    unfold getApiKeysByUserId
    rw [createMessage_apiKeys]
  have hres : resolveRegisteredKey (createMessage st conversationId message "user" env.now).2
      userId env.togetherApiKeyEnv = none := by
    unfold resolveRegisteredKey
    rw [hkeys, hstored, henv]
  have hmain : chatHandler env false userId message conversationId st =
      (.err 400 NO_KEY_MSG, (createMessage st conversationId message "user" env.now).2) := by
    simp [chatHandler, hconv, howner, registeredChat, hres]
  exact ⟨hmain, by rw [hmain]; exact createMessage_messageIdCounter st conversationId message "user" env.now⟩

/-- Witness for the amended claim C1 at a concrete input. -/
theorem c1_amended_witness :
    chatHandler demoEnvNoKey false 1 "hello" 1 demoStorage =
      (.err 400 NO_KEY_MSG, (createMessage demoStorage 1 "hello" "user" demoEnvNoKey.now).2) ∧
    (chatHandler demoEnvNoKey false 1 "hello" 1 demoStorage).2.messageIdCounter =
      demoStorage.messageIdCounter + 1 :=
  c1_amended_missing_key_aborts_after_user_message_persist demoEnvNoKey 1 "hello" 1
    demoStorage demoConversation (by decide) (by decide) (by decide) (by decide)

/-- `claim C2` — the history portion submitted to the completion API is
the image of the at-most-10-element suffix of the conversation history,
in order, with each content left alone at up to 8000 characters and cut
to the first 8000 characters plus the fixed marker otherwise. -/
theorem c2_formatted_history_bounded (conversationHistory : List Message) :
    (formattedHistory conversationHistory).length ≤ 10 ∧
    formattedHistory conversationHistory =
      (conversationHistory.drop (conversationHistory.length - 10)).map
        (fun msg => { role := msg.role, content := truncateContent msg.content }) ∧
    conversationHistory.take (conversationHistory.length - 10) ++
        conversationHistory.drop (conversationHistory.length - 10) =
      conversationHistory ∧
    ∀ s : String, truncateContent s =
      if jsLength s > 8000 then jsSubstring s 8000 ++ TRUNCATION_MARKER else s := by
  refine ⟨?_, rfl, List.take_append_drop _ _, fun s => rfl⟩
  simp only [formattedHistory, jsSliceNeg, List.length_map, List.length_drop]
  omega

/-- A sequence of successful registered chat turns acting on the memory
blob of one user: each turn stores
`{conversations: memoryStepConvs previous}` (the value `finishTurn`
passes to `storage.updateUser`). -/
def runMemoryTurns : List (String × String × String) → Option MemoryField →
    Option MemoryField
  | [], mem => mem
  | (message, aiResponse, nowIso) :: rest, mem =>
      runMemoryTurns rest
        (some (.mval (.objWithConvs (memoryStepConvs mem message aiResponse nowIso))))

/-- The length of the last-`n` slice is at most `n`. -/
theorem jsSliceNeg_length_le (n : Nat) (l : List α) : (jsSliceNeg n l).length ≤ n := by
  simp only [jsSliceNeg, List.length_drop]
  omega

/-- `claim C3` — each successful registered turn replaces the memory
`conversations` array by the last 10 elements of the previous array
extended with one entry made of the first 100 characters of the user
message and the first 200 characters of the reply; consequently the
array never exceeds 10 entries, and after any non-empty sequence of
successful turns the stored blob is an object whose array has at most
10 entries. -/
theorem c3_memory_fifo_capped_at_10 (mem : Option MemoryField)
    (message aiResponse nowIso : String)
    (turn : String × String × String) (turns : List (String × String × String)) :
    memoryStepConvs mem message aiResponse nowIso =
      jsSliceNeg 10 (existingConvs mem ++
        [⟨nowIso, jsSubstring message 100, jsSubstring aiResponse 200⟩]) ∧
    (memoryStepConvs mem message aiResponse nowIso).length ≤ 10 ∧
    ∃ convs : List MemEntry,
      runMemoryTurns (turn :: turns) mem = some (.mval (.objWithConvs convs)) ∧
      convs.length ≤ 10 := by
  refine ⟨rfl, jsSliceNeg_length_le 10 _, ?_⟩
  induction turns generalizing mem turn with
  | nil =>
      obtain ⟨msg, ai, iso⟩ := turn
      exact ⟨_, rfl, jsSliceNeg_length_le 10 _⟩
  | cons t ts ih =>
      obtain ⟨msg, ai, iso⟩ := turn
      exact ih _ t

/-- `claim C4` — a guest-mode chat turn leaves storage untouched on every
path, and on success returns the two synthesized transient messages with
`Date.now()`-generated ids and timestamps. -/
theorem c4_guest_turn_writes_nothing (env : ChatEnv) (reqUserId : Nat)
    (message : String) (conversationId : Nat) (st : Storage) :
    (chatHandler env true reqUserId message conversationId st).2 = st ∧
    ∀ reply, env.completion = .reply reply → truthy env.togetherApiKeyEnv ≠ none →
      (chatHandler env true reqUserId message conversationId st).1 =
        .ok ⟨env.now, conversationId, message, "user", env.now⟩
          ⟨env.now + 1, conversationId, reply, "assistant", env.now⟩ := by
  constructor
  · cases hk : truthy env.togetherApiKeyEnv with
    | none => simp [chatHandler, guestChat, hk]
    | some k =>
        cases hc : env.completion <;>
          simp [chatHandler, guestChat, finishTurn, hk, hc]
  · intro reply hr hk
    cases hkk : truthy env.togetherApiKeyEnv with
    | none => exact absurd hkk hk
    | some k => simp [chatHandler, guestChat, finishTurn, hkk, hr]

/-- Witness for claim C4 at a concrete guest request. -/
theorem c4_guest_witness :
    (chatHandler demoEnvWithKey true 7 "hello" 3 demoStorage).2 = demoStorage ∧
    (chatHandler demoEnvWithKey true 7 "hello" 3 demoStorage).1 =
      .ok ⟨100, 3, "hello", "user", 100⟩ ⟨101, 3, "yo", "assistant", 100⟩ :=
  ⟨(c4_guest_turn_writes_nothing demoEnvWithKey 7 "hello" 3 demoStorage).1,
   (c4_guest_turn_writes_nothing demoEnvWithKey 7 "hello" 3 demoStorage).2 "yo"
     (by decide) (by decide)⟩

/-- `claim C5` — after `deleteConversation(id)`, fetching any message of
that conversation by id yields nothing, while messages of other
conversations are still returned unchanged.  The id-uniqueness
hypothesis reflects that the source map is keyed by message id. -/
theorem c5_delete_conversation_removes_its_messages (st : Storage)
    (conversationId : Nat) (hnodup : (st.messages.map Message.id).Nodup) :
    (∀ mid m, getMessage st mid = some m → m.conversationId = conversationId →
        getMessage (deleteConversation st conversationId).2 mid = none) ∧
    (∀ mid m, getMessage st mid = some m → m.conversationId ≠ conversationId →
        getMessage (deleteConversation st conversationId).2 mid = some m) := by
  constructor
  · intro mid m hf hc
    unfold getMessage at hf ⊢
    show (st.messages.filter
      (fun x => decide (¬ x.conversationId = conversationId))).find? _ = none
    apply find?_filter_drop hf
    · simp [hc]
    · intro y hy hpy
      have hym : y.id = mid := by simpa using hpy
      have hmem : m ∈ st.messages := List.mem_of_find?_eq_some hf
      have hmid : m.id = mid := by simpa using List.find?_some hf
      exact List.inj_on_of_nodup_map hnodup hy hmem (by rw [hym, hmid])
  · intro mid m hf hc
    unfold getMessage at hf ⊢
    show (st.messages.filter
      (fun x => decide (¬ x.conversationId = conversationId))).find? _ = some m
    apply find?_filter_keep hf
    simp [hc]

/-- A storage state with one message in each of two conversations of the
same owner. -/
def c5Storage : Storage :=
  ⟨[demoUser], [demoConversation, ⟨2, 1, "Other", 0, 0⟩],
   [⟨1, 1, "first", "user", 1⟩, ⟨2, 2, "second", "user", 2⟩], [], 2, 3, 3, 1⟩

/-- Witness for claim C5: deleting conversation 1 removes its message
and keeps the message of conversation 2. -/
theorem c5_witness :
    getMessage (deleteConversation c5Storage 1).2 1 = none ∧
    getMessage (deleteConversation c5Storage 1).2 2 = some ⟨2, 2, "second", "user", 2⟩ :=
  ⟨(c5_delete_conversation_removes_its_messages c5Storage 1 (by decide)).1 1
      ⟨1, 1, "first", "user", 1⟩ (by decide) (by decide),
   (c5_delete_conversation_removes_its_messages c5Storage 1 (by decide)).2 2
      ⟨2, 2, "second", "user", 2⟩ (by decide) (by decide)⟩

/-- `claim C6` — `GET /api/conversations/:id` answers 404 when the
conversation does not exist, 403 when it belongs to another user, and
the conversation with its messages only for the owner. -/
theorem c6_get_conversation_access_control (st : Storage)
    (userId conversationId : Nat) :
    (getConversation st conversationId = none →
        getConversationHandler st userId conversationId =
          .err 404 CONV_NOT_FOUND_MSG) ∧
    (∀ c, getConversation st conversationId = some c → c.userId ≠ userId →
        getConversationHandler st userId conversationId =
          .err 403 ACCESS_DENIED_MSG) ∧
    (∀ c, getConversation st conversationId = some c → c.userId = userId →
        getConversationHandler st userId conversationId =
          .ok c (getMessagesByConversationId st conversationId)) := by
  refine ⟨fun h => ?_, fun c h hne => ?_, fun c h he => ?_⟩ <;>
    simp [getConversationHandler, h, *]

/-- Witness for claim C6: a missing id, a foreign requester and the
owner, on the demo storage. -/
theorem c6_witness :
    getConversationHandler demoStorage 1 5 = .err 404 CONV_NOT_FOUND_MSG ∧
    getConversationHandler demoStorage 2 1 = .err 403 ACCESS_DENIED_MSG ∧
    getConversationHandler demoStorage 1 1 =
      .ok demoConversation (getMessagesByConversationId demoStorage 1) :=
  ⟨(c6_get_conversation_access_control demoStorage 1 5).1 (by decide),
   (c6_get_conversation_access_control demoStorage 2 1).2.1 demoConversation
     (by decide) (by decide),
   (c6_get_conversation_access_control demoStorage 1 1).2.2 demoConversation
     (by decide) (by decide)⟩

/-- `claim C7` — once the assistant reply is obtained, the turn answers
200 with both messages no matter what the memory-update step does (in
particular when the `storage.updateUser` write throws), and a memory
blob that fails to parse during that step is replaced by a fresh one:
the written array is just the single new entry. -/
theorem c7_memory_update_failure_nonfatal (memWriteFails : Bool) (userId : Nat)
    (userMessage assistantMessage : Message) (message aiResponse nowIso : String)
    (st : Storage) :
    (finishTurn memWriteFails userId userMessage assistantMessage message aiResponse
        nowIso st).1 = .ok userMessage assistantMessage ∧
    ∀ m : MemoryField, memTruthy m = true → parseMem m = none →
      memoryStepConvs (some m) message aiResponse nowIso =
        [⟨nowIso, jsSubstring message 100, jsSubstring aiResponse 200⟩] := by
  constructor
  · rfl
  · intro m hm hp
    simp [memoryStepConvs, existingConvs, hm, hp, jsSliceNeg]

/-- Witness for claim C7 at a concrete turn with a throwing write and an
unparseable string memory value. -/
theorem c7_witness :
    (finishTurn true 1 ⟨1, 1, "hi", "user", 100⟩ ⟨2, 1, "yo", "assistant", 100⟩
        "hi" "yo" "iso" demoStorage).1 =
      .ok ⟨1, 1, "hi", "user", 100⟩ ⟨2, 1, "yo", "assistant", 100⟩ ∧
    memoryStepConvs (some (.mstr "not valid json" none)) "hi" "yo" "iso" =
      [⟨"iso", jsSubstring "hi" 100, jsSubstring "yo" 200⟩] :=
  ⟨(c7_memory_update_failure_nonfatal true 1 ⟨1, 1, "hi", "user", 100⟩
      ⟨2, 1, "yo", "assistant", 100⟩ "hi" "yo" "iso" demoStorage).1,
   (c7_memory_update_failure_nonfatal true 1 ⟨1, 1, "hi", "user", 100⟩
      ⟨2, 1, "yo", "assistant", 100⟩ "hi" "yo" "iso" demoStorage).2
     (.mstr "not valid json" none) (by decide) (by decide)⟩

/-- `claim C8` — "what is the capital of France" matches a pattern of
the fixed list; "please summarize this" matches none. -/
theorem c8_search_intent_examples :
    detectWebSearchIntent "what is the capital of France" = true ∧
    detectWebSearchIntent "please summarize this" = false :=
  ⟨by decide, by decide⟩

/-- A registered user whose memory column holds a string that
`JSON.parse` rejects. -/
def c9User : User :=
  ⟨1, "alice", some "hash", some "alice@x.com", none, some "local", none,
   some (.mstr "not valid json" none)⟩

/-- Storage for claim C9: the broken-memory user, an owned conversation,
and a stored (valid) Together key. -/
def c9Storage : Storage :=
  ⟨[c9User], [demoConversation], [], [⟨1, 1, some "sk-valid", none⟩], 2, 2, 1, 1⟩

/-- `claim C9` — with a stored memory string that is not valid JSON, a
registered chat turn answers 500 "Failed to process message" even though
a valid completion credential is stored, because the system-prompt
construction parses the memory without a guard; the user message is
already persisted when this happens. -/
theorem c9_unguarded_memory_parse_gives_500 :
    (chatHandler demoEnvNoKey false 1 "hi" 1 c9Storage).1 =
      .err 500 PROCESS_FAIL_MSG ∧
    (chatHandler demoEnvNoKey false 1 "hi" 1 c9Storage).2.messages =
      [⟨1, 1, "hi", "user", 100⟩] ∧
    truthy ((getApiKeysByUserId c9Storage 1).bind ApiKey.togetherApiKey) =
      some "sk-valid" :=
  ⟨by decide, by decide, by decide⟩

/-- `claim C10` — `GET /api/me` returns the stored user record verbatim,
password hash, provider id and memory blob included, while the login and
register responses carry only id, username and email. -/
theorem c10_me_returns_stored_user_verbatim (user : User) :
    meHandler user = user ∧
    (meHandler user).password = user.password ∧
    (meHandler user).providerId = user.providerId ∧
    (meHandler user).memory = user.memory ∧
    loginResponseBody user = ⟨user.id, user.username, user.email⟩ ∧
    registerResponseBody user = ⟨user.id, user.username, user.email⟩ :=
  ⟨rfl, rfl, rfl, rfl, rfl, rfl⟩

end HelpAi
